import Mathlib

set_option maxHeartbeats 1000000

/-! Shallow embedding of the RegimeShift Sentinel background service worker
(`class RegimeShiftSentinel` in the background script). JavaScript numbers are
modelled as real numbers, the `chrome.storage.local` key-value store as
optional `stored...` fields on the state record, and the `setTimeout` used by
stabilization as an explicit pending-delay field. Timestamps (`Date.now()`)
are threaded in as parameters. -/

/-- Result object of `detectChangePoint`:
`{ probability, changePoint, magnitude }`. -/
structure ChangePointResult where
  probability : ℝ
  changePoint : ℤ
  magnitude : ℝ

/-- `mean(arr)`: `0` for a missing/empty array, else `sum / length`. -/
noncomputable def listMean (arr : List ℝ) : ℝ :=
  if arr.length = 0 then 0 else arr.sum / arr.length

/-- `variance(arr, mean)`: `0` for a missing/empty array, else the mean of the
squared deviations `(x - mean)^2` (population variance). -/
noncomputable def listVariance (arr : List ℝ) (mean : ℝ) : ℝ :=
  if arr.length = 0 then 0
  else (arr.map (fun x => (x - mean) ^ 2)).sum / arr.length

/-- Body of the loop in `detectChangePoint` for one candidate split `i`:
segments `timeSeries.slice(0, i)` and `timeSeries.slice(i)`, and the score
`Math.min(0.95, |mean1 - mean2| / (Math.sqrt(var1 + var2) + 0.001))`. -/
noncomputable def splitScore (timeSeries : List ℝ) (i : ℕ) : ℝ :=
  let segment1 := timeSeries.take i
  let segment2 := timeSeries.drop i
  let mean1 := listMean segment1
  let mean2 := listMean segment2
  let var1 := listVariance segment1 mean1
  let var2 := listVariance segment2 mean2
  min 0.95 (|mean1 - mean2| / (Real.sqrt (var1 + var2) + 0.001))

/-- One iteration of the `detectChangePoint` loop: the accumulator is the pair
`(maxProbability, bestChangePoint)`, updated only on strict improvement
(`if (probability > maxProbability)`). -/
noncomputable def detectStep (timeSeries : List ℝ) (acc : ℝ × ℤ) (i : ℕ) :
    ℝ × ℤ :=
  if splitScore timeSeries i > acc.1 then (splitScore timeSeries i, (i : ℤ))
  else acc

/-- `detectChangePoint(timeSeries)`: returns `{0, -1, 0}` for fewer than two
samples; otherwise runs `for (let i = 3; i < n - 3; i++)` (that is, over
`List.range' 3 (n - 6)`) starting from `maxProbability = 0`,
`bestChangePoint = -1`, and returns
`{ probability: maxProbability, changePoint: bestChangePoint,
   magnitude: maxProbability }`. -/
noncomputable def detectChangePoint (timeSeries : List ℝ) : ChangePointResult :=
  if timeSeries.length < 2 then ⟨0, -1, 0⟩
  else
    let r := (List.range' 3 (timeSeries.length - 6)).foldl
      (detectStep timeSeries) (0, -1)
    ⟨r.1, r.2, r.1⟩

/-- The three values of `this.currentMode`. -/
inductive Mode where
  | adaptive_observation
  | warning
  | stabilization
deriving DecidableEq

/-- `metrics.memory` as assembled by `collectMetrics` / `getMemoryInfo`. -/
structure MemoryInfo where
  available : ℝ
  capacity : ℝ
  usage : ℝ

/-- `metrics.cpu` as assembled by `collectMetrics` / `getCpuInfo`. -/
structure CpuInfo where
  processors : ℕ
  usage : ℝ

/-- `metrics.tabs` as assembled by `collectMetrics` / `getTabInfo`. -/
structure TabInfo where
  count : ℕ
  active : ℕ

/-- `metrics.network` as assembled by `collectMetrics` / `getNetworkInfo`. -/
structure NetworkInfo where
  online : Bool
  type : String

/-- One sample pushed onto `this.metrics` per `collectMetrics` tick. -/
structure MetricSample where
  timestamp : ℕ
  memory : MemoryInfo
  cpu : CpuInfo
  tabs : TabInfo
  network : NetworkInfo

/-- One element of `detectedShifts` in `analyzeMetrics` (and of the test shift
list in the `TEST_WARNING` handler). -/
structure ShiftFinding where
  metric : String
  probability : ℝ
  changePoint : ℤ
  severity : String

/-- The warning object stored by `handleRegimeShift`:
`{ timestamp, shifts, overallConfidence }`. -/
structure Warning where
  timestamp : ℕ
  shifts : List ShiftFinding
  overallConfidence : ℝ

/-- State of a `RegimeShiftSentinel` instance together with the
`chrome.storage.local` keys the background script writes. The `stored...`
fields model the persistent store (`none` = key absent);
`pendingStabilizationExit` models the `setTimeout` scheduled by
`performStabilizationActions` (the delay in milliseconds, `none` when no
timed exit is pending). -/
structure SentinelState where
  metrics : List MetricSample
  currentMode : Mode
  confidenceThreshold : ℝ
  windowSize : ℕ
  stabilizationActive : Bool
  isInitialized : Bool
  storedWarning : Option Warning
  storedMode : Option Mode
  storedStabilizationActive : Option Bool
  storedConfidenceThreshold : Option ℝ
  storedWindowSize : Option ℕ
  storedMonitoringEnabled : Option Bool
  storedCurrentMetrics : Option MetricSample
  pendingStabilizationExit : Option ℕ

/-- `arr.slice(-w)` on a JavaScript array: for `w = 0` this is `slice(0)`
(the whole array, since `-0 === 0`); for `w ≥ 1` it keeps the last
`min w (length arr)` elements. -/
def jsSliceLast {α : Type} (l : List α) (w : ℕ) : List α :=
  if w = 0 then l else l.drop (l.length - w)

/-- `collectMetrics()` with the assembled sample passed in (the adapter
queries are environment inputs): push the sample, trim to the last
`windowSize` entries when the window exceeds capacity
(`this.metrics = this.metrics.slice(-this.windowSize)`), and persist the
sample under the `currentMetrics` key. -/
def collectMetrics (s : SentinelState) (sample : MetricSample) :
    SentinelState :=
  let pushed := s.metrics ++ [sample]
  let trimmed :=
    if s.windowSize < pushed.length then jsSliceLast pushed s.windowSize
    else pushed
  { s with metrics := trimmed, storedCurrentMetrics := some sample }

/-- `calculateSeverity(magnitude)`. -/
noncomputable def calculateSeverity (magnitude : ℝ) : String :=
  if magnitude > 0.8 then "critical"
  else if magnitude > 0.6 then "high"
  else if magnitude > 0.4 then "medium"
  else "low"

/-- `Math.max(...shifts.map(s => s.probability))`. Every call site passes a
nonempty list (the analyzer guards on `detectedShifts.length > 0` and the
test hook passes a singleton); `Math.max()` of an empty spread would be
`-Infinity`, modelled here as the unused `0` branch. -/
noncomputable def overallConfidenceOf (shifts : List ShiftFinding) : ℝ :=
  match shifts with
  | [] => 0
  | x :: xs => xs.foldl (fun a f => max a f.probability) x.probability

/-- `handleRegimeShift(shifts)`: set `currentMode = 'warning'` and persist a
warning `{ timestamp: Date.now(), shifts, overallConfidence }` together with
the mode. The browser notification is an external side effect, not state. -/
noncomputable def handleRegimeShift (now : ℕ) (shifts : List ShiftFinding)
    (s : SentinelState) : SentinelState :=
  { s with currentMode := Mode.warning,
           storedWarning := some ⟨now, shifts, overallConfidenceOf shifts⟩,
           storedMode := some Mode.warning }

/-- `analyzeMetrics()`: no-op below 5 samples; otherwise run the detector on
the memory-usage and cpu-usage series, collect a `ShiftFinding` for each
whose probability strictly exceeds `confidenceThreshold`, and either call
`handleRegimeShift` (some finding) or set the mode to
`'adaptive_observation'` and persist it (no finding). -/
noncomputable def analyzeMetrics (now : ℕ) (s : SentinelState) :
    SentinelState :=
  if s.metrics.length < 5 then s
  else
    let memoryUsage := s.metrics.map (fun m => m.memory.usage)
    let cpuUsage := s.metrics.map (fun m => m.cpu.usage)
    let memoryShift := detectChangePoint memoryUsage
    let cpuShift := detectChangePoint cpuUsage
    let detectedShifts :=
      (if memoryShift.probability > s.confidenceThreshold then
        [ShiftFinding.mk "memory_usage" memoryShift.probability
          memoryShift.changePoint (calculateSeverity memoryShift.magnitude)]
      else []) ++
      (if cpuShift.probability > s.confidenceThreshold then
        [ShiftFinding.mk "cpu_usage" cpuShift.probability
          cpuShift.changePoint (calculateSeverity cpuShift.magnitude)]
      else [])
    if 0 < detectedShifts.length then handleRegimeShift now detectedShifts s
    else { s with currentMode := Mode.adaptive_observation,
                  storedMode := some Mode.adaptive_observation }

/-- The `setTimeout` delay in `performStabilizationActions`:
`2 * 60 * 1000` milliseconds ("Reduced to 2 minutes for testing"). -/
def stabilizationDwellMs : ℕ := 2 * 60 * 1000

/-- `enterStabilizationMode()` (the `TRIGGER_STABILIZATION` handler): set
mode `'stabilization'`, `stabilizationActive = true`, persist both, and (via
`performStabilizationActions`) schedule the timed exit after
`stabilizationDwellMs`. Discarding inactive tabs is an external side
effect, not state. -/
def enterStabilizationMode (s : SentinelState) : SentinelState :=
  { s with currentMode := Mode.stabilization,
           stabilizationActive := true,
           storedMode := some Mode.stabilization,
           storedStabilizationActive := some true,
           pendingStabilizationExit := some stabilizationDwellMs }

/-- `exitStabilizationMode()` (the `setTimeout` callback): clear
`stabilizationActive`, return the mode to `'adaptive_observation'`, persist
both; the pending timer has fired, so none remains. -/
def exitStabilizationMode (s : SentinelState) : SentinelState :=
  { s with stabilizationActive := false,
           currentMode := Mode.adaptive_observation,
           storedMode := some Mode.adaptive_observation,
           storedStabilizationActive := some false,
           pendingStabilizationExit := none }

/-- The `ACKNOWLEDGE_WARNING` message handler:
`chrome.storage.local.remove('currentWarning')`, set
`currentMode = 'adaptive_observation'`, and persist the mode via
`updateMode()`. -/
def acknowledgeWarningMsg (s : SentinelState) : SentinelState :=
  { s with storedWarning := none,
           currentMode := Mode.adaptive_observation,
           storedMode := some Mode.adaptive_observation }

/-- A `request.settings` payload of the `UPDATE_SETTINGS` message: each field
is present (`some`) or absent (`none`), exactly the keys present on the
JavaScript object. -/
structure SettingsUpdate where
  confidenceThreshold : Option ℝ
  windowSize : Option ℕ
  monitoringEnabled : Option Bool

/-- The `UPDATE_SETTINGS` message handler:
`chrome.storage.local.set(request.settings)` overwrites exactly the keys
present on the payload, then each of `confidenceThreshold` / `windowSize`
present on the payload (`!== undefined`) is copied into the live instance
field unconditionally. -/
def updateSettingsMsg (request : SettingsUpdate) (s : SentinelState) :
    SentinelState :=
  { s with
    storedConfidenceThreshold :=
      request.confidenceThreshold.orElse (fun _ => s.storedConfidenceThreshold),
    storedWindowSize :=
      request.windowSize.orElse (fun _ => s.storedWindowSize),
    storedMonitoringEnabled :=
      request.monitoringEnabled.orElse (fun _ => s.storedMonitoringEnabled),
    confidenceThreshold :=
      request.confidenceThreshold.getD s.confidenceThreshold,
    windowSize := request.windowSize.getD s.windowSize }

/-- The `TEST_WARNING` message handler: `handleRegimeShift` with the single
synthetic finding
`{ metric: 'test_usage', probability: 0.85, changePoint: 5, severity: 'high' }`. -/
noncomputable def testWarningMsg (now : ℕ) (s : SentinelState) :
    SentinelState :=
  handleRegimeShift now
    [ShiftFinding.mk "test_usage" 0.85 5 "high"] s

/-- The field values set by the `RegimeShiftSentinel` constructor (before any
storage load): empty window, mode `'adaptive_observation'`, threshold `0.75`,
window size `50`, `stabilizationActive = false`; no storage keys written. -/
noncomputable def initialState : SentinelState :=
  { metrics := []
    currentMode := Mode.adaptive_observation
    confidenceThreshold := 0.75
    windowSize := 50
    stabilizationActive := false
    isInitialized := false
    storedWarning := none
    storedMode := none
    storedStabilizationActive := none
    storedConfidenceThreshold := none
    storedWindowSize := none
    storedMonitoringEnabled := none
    storedCurrentMetrics := none
    pendingStabilizationExit := none }

/-- A constant metric sample: 50 percent memory and cpu usage. -/
noncomputable def flatSample : MetricSample :=
  { timestamp := 0
    memory := { available := 8000000000, capacity := 16000000000, usage := 50 }
    cpu := { processors := 8, usage := 50 }
    tabs := { count := 1, active := 1 }
    network := { online := true, type := "unknown" } }

/-- A sentinel in `'warning'` mode holding five identical flat samples. -/
noncomputable def warningFlatState : SentinelState :=
  { initialState with currentMode := Mode.warning,
                      metrics := List.replicate 5 flatSample }

/-- An `UPDATE_SETTINGS` payload whose two numeric fields are both outside
their documented ranges (`confidenceThreshold = 2 ∉ [0.5, 0.95]`,
`windowSize = 500 ∉ [10, 200]`). -/
noncomputable def oversizedSettings : SettingsUpdate :=
  { confidenceThreshold := some 2, windowSize := some 500,
    monitoringEnabled := none }

/-- A fresh sentinel whose window size has been set to `2`. -/
noncomputable def tinyWindowState : SentinelState :=
  { initialState with windowSize := 2 }

/-- The flat sample re-stamped at time `t` (distinct samples for the
window-eviction example). -/
noncomputable def sampleAt (t : ℕ) : MetricSample :=
  { flatSample with timestamp := t }

/-- The last `w` elements of `l`, oldest first (the "most recent samples in
arrival order" view used to state the FIFO window invariant). -/
def lastWindow {α : Type} (l : List α) (w : ℕ) : List α :=
  l.drop (l.length - w)

/-- The step series of the spec's detector example: sixty `0` samples
followed by sixty `10` samples. -/
noncomputable def stepSeries : List ℝ :=
  List.replicate 60 0 ++ List.replicate 60 10

theorem splitScore_def (ts : List ℝ) (i : ℕ) :
    splitScore ts i =
      min 0.95 (|listMean (ts.take i) - listMean (ts.drop i)| /
        (Real.sqrt (listVariance (ts.take i) (listMean (ts.take i)) +
          listVariance (ts.drop i) (listMean (ts.drop i))) + 0.001)) := rfl

theorem splitScore_nonneg (ts : List ℝ) (i : ℕ) : 0 ≤ splitScore ts i := by
  rw [splitScore_def]
  have hd : (0:ℝ) <
      Real.sqrt (listVariance (ts.take i) (listMean (ts.take i)) +
        listVariance (ts.drop i) (listMean (ts.drop i))) + 0.001 := by
    have := Real.sqrt_nonneg (listVariance (ts.take i) (listMean (ts.take i)) +
      listVariance (ts.drop i) (listMean (ts.drop i)))
    linarith
  exact le_min (by norm_num) (div_nonneg (abs_nonneg _) (le_of_lt hd))

theorem splitScore_le (ts : List ℝ) (i : ℕ) : splitScore ts i ≤ 0.95 := by
  rw [splitScore_def]; exact min_le_left _ _

theorem foldl_detectStep_of_le (ts : List ℝ) :
    ∀ (l : List ℕ) (a : ℝ) (b : ℤ), (∀ i ∈ l, splitScore ts i ≤ a) →
      l.foldl (detectStep ts) (a, b) = (a, b)
  | [], _, _, _ => rfl
  | i :: l, a, b, h => by
    have hi : splitScore ts i ≤ a := h i (List.mem_cons_self i l)
    have hstep : detectStep ts (a, b) i = (a, b) := by
      unfold detectStep; rw [if_neg (not_lt.mpr hi)]
    rw [List.foldl_cons, hstep]
    exact foldl_detectStep_of_le ts l a b fun j hj => h j (List.mem_cons_of_mem _ hj)

theorem detect_of_le_six (ts : List ℝ) (h2 : 2 ≤ ts.length)
    (h6 : ts.length ≤ 6) : detectChangePoint ts = ⟨0, -1, 0⟩ := by
  unfold detectChangePoint
  rw [if_neg (not_lt.mpr h2), Nat.sub_eq_zero_of_le h6]
  rfl

theorem analyzeMetrics_noShift (now : ℕ) (s : SentinelState)
    (h5 : ¬ s.metrics.length < 5)
    (hm : ¬ (detectChangePoint (s.metrics.map fun m => m.memory.usage)).probability
        > s.confidenceThreshold)
    (hc : ¬ (detectChangePoint (s.metrics.map fun m => m.cpu.usage)).probability
        > s.confidenceThreshold) :
    analyzeMetrics now s =
      { s with currentMode := Mode.adaptive_observation,
               storedMode := some Mode.adaptive_observation } := by
  unfold analyzeMetrics
  rw [if_neg h5]
  simp only [if_neg hm, if_neg hc, List.nil_append, List.length_nil,
    lt_irrefl, if_false]

theorem detectFold_spec (ts : List ℝ) :
    ∀ (l : List ℕ) (a : ℝ) (b : ℤ),
      a ≤ (l.foldl (detectStep ts) (a, b)).1 ∧
      (∀ i ∈ l, splitScore ts i ≤ (l.foldl (detectStep ts) (a, b)).1) ∧
      (l.foldl (detectStep ts) (a, b) = (a, b) ∨
        ∃ l1 i l2, l = l1 ++ i :: l2 ∧
          (l.foldl (detectStep ts) (a, b)).1 = splitScore ts i ∧
          (l.foldl (detectStep ts) (a, b)).2 = (i : ℤ) ∧
          a < splitScore ts i ∧
          (∀ j ∈ l1, splitScore ts j < splitScore ts i) ∧
          (∀ j ∈ l2, splitScore ts j ≤ splitScore ts i)) := by
  intro l
  induction l with
  | nil => exact fun a b => ⟨le_refl _, by simp, Or.inl rfl⟩
  | cons x xs ih =>
    intro a b
    by_cases hx : splitScore ts x > a
    · have hstep : detectStep ts (a, b) x = (splitScore ts x, (x : ℤ)) := by
        unfold detectStep; rw [if_pos hx]
      rw [List.foldl_cons, hstep]
      obtain ⟨ih1, ih2, ih3⟩ := ih (splitScore ts x) (x : ℤ)
      refine ⟨le_trans (le_of_lt hx) ih1, ?_, ?_⟩
      · intro i hi
        rcases List.mem_cons.mp hi with rfl | hi
        · exact ih1
        · exact ih2 i hi
      · rcases ih3 with heq | ⟨l1, i, l2, hl, h1, h2, h3, h4, h5⟩
        · refine Or.inr ⟨[], x, xs, by simp, ?_, ?_, hx, by simp, ?_⟩
          · rw [heq]
          · rw [heq]
          · intro j hj
            have hle := ih2 j hj
            rw [heq] at hle
            exact hle
        · refine Or.inr ⟨x :: l1, i, l2, by rw [hl, List.cons_append], h1, h2,
            lt_trans hx h3, ?_, h5⟩
          intro j hj
          rcases List.mem_cons.mp hj with rfl | hj
          · exact h3
          · exact h4 j hj
    · have hstep : detectStep ts (a, b) x = (a, b) := by
        unfold detectStep; rw [if_neg hx]
      rw [List.foldl_cons, hstep]
      obtain ⟨ih1, ih2, ih3⟩ := ih a b
      refine ⟨ih1, ?_, ?_⟩
      · intro i hi
        rcases List.mem_cons.mp hi with rfl | hi
        · exact le_trans (not_lt.mp hx) ih1
        · exact ih2 i hi
      · rcases ih3 with heq | ⟨l1, i, l2, hl, h1, h2, h3, h4, h5⟩
        · exact Or.inl heq
        · refine Or.inr ⟨x :: l1, i, l2, by rw [hl, List.cons_append], h1, h2, h3, ?_, h5⟩
          intro j hj
          rcases List.mem_cons.mp hj with rfl | hj
          · exact lt_of_le_of_lt (not_lt.mp hx) h3
          · exact h4 j hj

theorem detectChangePoint_eq (ts : List ℝ) (h : ¬ ts.length < 2) :
    detectChangePoint ts =
      ⟨((List.range' 3 (ts.length - 6)).foldl (detectStep ts) (0, -1)).1,
       ((List.range' 3 (ts.length - 6)).foldl (detectStep ts) (0, -1)).2,
       ((List.range' 3 (ts.length - 6)).foldl (detectStep ts) (0, -1)).1⟩ := by
  unfold detectChangePoint
  rw [if_neg h]

theorem flatState_length : ¬ warningFlatState.metrics.length < 5 := by
  show ¬ (List.replicate 5 flatSample).length < 5
  simp

theorem flatState_noMemShift :
    ¬ (detectChangePoint (warningFlatState.metrics.map fun m =>
        m.memory.usage)).probability > warningFlatState.confidenceThreshold := by
  have hmap : (warningFlatState.metrics.map fun m => m.memory.usage)
      = List.replicate 5 (50:ℝ) := by
    show ((List.replicate 5 flatSample).map fun m => m.memory.usage) = _
    rw [List.map_replicate]
    rfl
  rw [hmap, detect_of_le_six _ (by simp) (by simp)]
  show ¬ (0:ℝ) > (0.75:ℝ)
  norm_num

theorem flatState_noCpuShift :
    ¬ (detectChangePoint (warningFlatState.metrics.map fun m =>
        m.cpu.usage)).probability > warningFlatState.confidenceThreshold := by
  have hmap : (warningFlatState.metrics.map fun m => m.cpu.usage)
      = List.replicate 5 (50:ℝ) := by
    show ((List.replicate 5 flatSample).map fun m => m.cpu.usage) = _
    rw [List.map_replicate]
    rfl
  rw [hmap, detect_of_le_six _ (by simp) (by simp)]
  show ¬ (0:ℝ) > (0.75:ℝ)
  norm_num

/-- C8: for every input series of length less than 2 — the empty series and
every single-element series — `detectChangePoint` returns exactly
`{probability: 0, changePointIndex: -1, magnitude: 0}`. -/
theorem claim_C8_detect_short :
    detectChangePoint ([] : List ℝ) = ⟨0, -1, 0⟩ ∧
    ∀ x : ℝ, detectChangePoint [x] = ⟨0, -1, 0⟩ :=
  ⟨rfl, fun _ => rfl⟩

/-- C10: from every starting mode (including `stabilization`), the
`ACKNOWLEDGE_WARNING` command removes the stored warning and sets the mode to
`adaptive_observation`, leaving `stabilizationActive`, the settings (live and
stored) and the metric window unchanged. -/
theorem claim_C10_acknowledge_frame (s : SentinelState) :
    (acknowledgeWarningMsg s).storedWarning = none ∧
    (acknowledgeWarningMsg s).currentMode = Mode.adaptive_observation ∧
    (acknowledgeWarningMsg s).storedMode = some Mode.adaptive_observation ∧
    (acknowledgeWarningMsg s).stabilizationActive = s.stabilizationActive ∧
    (acknowledgeWarningMsg s).confidenceThreshold = s.confidenceThreshold ∧
    (acknowledgeWarningMsg s).windowSize = s.windowSize ∧
    (acknowledgeWarningMsg s).storedStabilizationActive
      = s.storedStabilizationActive ∧
    (acknowledgeWarningMsg s).storedConfidenceThreshold
      = s.storedConfidenceThreshold ∧
    (acknowledgeWarningMsg s).storedWindowSize = s.storedWindowSize ∧
    (acknowledgeWarningMsg s).storedMonitoringEnabled
      = s.storedMonitoringEnabled ∧
    (acknowledgeWarningMsg s).metrics = s.metrics :=
  ⟨rfl, rfl, rfl, rfl, rfl, rfl, rfl, rfl, rfl, rfl, rfl⟩

/-- C6: the `TRIGGER_STABILIZATION` command, issued from any mode, sets the
mode to `stabilization` with `stabilizationActive = true` and schedules the
timed exit after the fixed dwell of `2 * 60 * 1000` ms (2 minutes); when that
timer fires with no further command, the mode returns to
`adaptive_observation` with `stabilizationActive = false`. -/
theorem claim_C6_stabilization_dwell (s : SentinelState) :
    (enterStabilizationMode s).currentMode = Mode.stabilization ∧
    (enterStabilizationMode s).stabilizationActive = true ∧
    (enterStabilizationMode s).pendingStabilizationExit
      = some stabilizationDwellMs ∧
    stabilizationDwellMs = 2 * 60 * 1000 ∧
    (exitStabilizationMode (enterStabilizationMode s)).currentMode
      = Mode.adaptive_observation ∧
    (exitStabilizationMode (enterStabilizationMode s)).stabilizationActive
      = false :=
  ⟨rfl, rfl, rfl, rfl, rfl, rfl⟩

/-- C7: starting in `adaptive_observation`, the `TEST_WARNING` command moves
the mode to `warning` and stores a warning whose `overallConfidence` is
`0.85` — the maximum probability over its single synthetic finding. -/
theorem claim_C7_test_warning (now : ℕ) (s : SentinelState)
    (_h : s.currentMode = Mode.adaptive_observation) :
    (testWarningMsg now s).currentMode = Mode.warning ∧
    (testWarningMsg now s).storedWarning =
      some ⟨now, [ShiftFinding.mk "test_usage" 0.85 5 "high"], 0.85⟩ ∧
    overallConfidenceOf [ShiftFinding.mk "test_usage" 0.85 5 "high"] = 0.85 :=
  ⟨rfl, rfl, rfl⟩

theorem claim_C7_witness :
    (testWarningMsg 0 initialState).currentMode = Mode.warning ∧
    (testWarningMsg 0 initialState).storedWarning =
      some ⟨0, [ShiftFinding.mk "test_usage" 0.85 5 "high"], 0.85⟩ ∧
    overallConfidenceOf [ShiftFinding.mk "test_usage" 0.85 5 "high"] = 0.85 :=
  claim_C7_test_warning 0 initialState rfl

/-- C4 counterexample: the `UPDATE_SETTINGS` payload
`{confidenceThreshold: 2, windowSize: 500}` has both fields outside their
documented ranges (`[0.5, 0.95]` and `[10, 200]`), yet the handler applies
both values instead of keeping the prior `0.75` and `50`. -/
theorem claim_C4_counterexample :
    initialState.confidenceThreshold = 0.75 ∧
    initialState.windowSize = 50 ∧
    ¬ ((0.5:ℝ) ≤ 2 ∧ (2:ℝ) ≤ 0.95) ∧
    ¬ (10 ≤ (500:ℕ) ∧ (500:ℕ) ≤ 200) ∧
    (updateSettingsMsg oversizedSettings initialState).confidenceThreshold
      = 2 ∧
    (updateSettingsMsg oversizedSettings initialState).windowSize = 500 :=
  ⟨rfl, rfl, by norm_num, by norm_num, rfl, rfl⟩

/-- C4 amended: each field present on an `UPDATE_SETTINGS` payload is applied
unconditionally — even when outside the documented range — and each absent
field keeps its prior value: the merge is per field presence, with no range
validation anywhere. -/
theorem claim_C4_amended (request : SettingsUpdate) (s : SentinelState) :
    (request.confidenceThreshold = none →
      (updateSettingsMsg request s).confidenceThreshold
        = s.confidenceThreshold) ∧
    (∀ v : ℝ, request.confidenceThreshold = some v →
      (updateSettingsMsg request s).confidenceThreshold = v) ∧
    (request.windowSize = none →
      (updateSettingsMsg request s).windowSize = s.windowSize) ∧
    (∀ v : ℕ, request.windowSize = some v →
      (updateSettingsMsg request s).windowSize = v) := by
  refine ⟨fun h => ?_, fun v h => ?_, fun h => ?_, fun v h => ?_⟩ <;>
    simp [updateSettingsMsg, h]

theorem claim_C4_amended_witness :
    (updateSettingsMsg oversizedSettings initialState).confidenceThreshold
      = 2 ∧
    (updateSettingsMsg oversizedSettings initialState).windowSize = 500 ∧
    (updateSettingsMsg (SettingsUpdate.mk none none none)
      initialState).confidenceThreshold = initialState.confidenceThreshold :=
  ⟨(claim_C4_amended oversizedSettings initialState).2.1 2 rfl,
   (claim_C4_amended oversizedSettings initialState).2.2.2 500 rfl,
   (claim_C4_amended (SettingsUpdate.mk none none none) initialState).1 rfl⟩

/-- C2 counterexample: with the mode already `warning` and five flat samples
(so no shift is detectable and no probability exceeds the threshold), one
analyzer run resets the mode instead of leaving it unchanged. -/
theorem claim_C2_counterexample :
    warningFlatState.currentMode = Mode.warning ∧
    ¬ (detectChangePoint (warningFlatState.metrics.map fun m =>
        m.memory.usage)).probability > warningFlatState.confidenceThreshold ∧
    ¬ (detectChangePoint (warningFlatState.metrics.map fun m =>
        m.cpu.usage)).probability > warningFlatState.confidenceThreshold ∧
    (analyzeMetrics 0 warningFlatState).currentMode ≠ Mode.warning := by
  refine ⟨rfl, flatState_noMemShift, flatState_noCpuShift, ?_⟩
  rw [analyzeMetrics_noShift 0 warningFlatState flatState_length
    flatState_noMemShift flatState_noCpuShift]
  intro h
  exact Mode.noConfusion h

/-- C2 amended: whenever the analyzer runs (at least 5 samples in the window)
and no metric probability exceeds `confidenceThreshold`, the mode is
unconditionally set to `adaptive_observation`, whatever the current mode was —
a `warning` or `stabilization` mode is not preserved by the "no shift"
outcome. -/
theorem claim_C2_amended (now : ℕ) (s : SentinelState)
    (h5 : 5 ≤ s.metrics.length)
    (hm : ¬ (detectChangePoint (s.metrics.map fun m =>
        m.memory.usage)).probability > s.confidenceThreshold)
    (hc : ¬ (detectChangePoint (s.metrics.map fun m =>
        m.cpu.usage)).probability > s.confidenceThreshold) :
    (analyzeMetrics now s).currentMode = Mode.adaptive_observation := by
  rw [analyzeMetrics_noShift now s (not_lt.mpr h5) hm hc]

theorem claim_C2_amended_witness :
    (analyzeMetrics 0 warningFlatState).currentMode
      = Mode.adaptive_observation :=
  claim_C2_amended 0 warningFlatState (not_lt.mp flatState_length)
    flatState_noMemShift flatState_noCpuShift

/-- C9: for every series of length between 2 and 6 inclusive the candidate
split range `[3, len-3)` is empty and `detectChangePoint` returns
`{probability: 0, changePointIndex: -1, magnitude: 0}`; consequently an
analyzer run over a window of 5 or 6 samples (the analyzer already runs from
5 samples on) stores no warning and reports no shift for any nonnegative
threshold. -/
theorem claim_C9_small_series :
    (∀ ts : List ℝ, 2 ≤ ts.length → ts.length ≤ 6 →
      detectChangePoint ts = ⟨0, -1, 0⟩ ∧
      List.range' 3 (ts.length - 6) = []) ∧
    (∀ (now : ℕ) (s : SentinelState), 5 ≤ s.metrics.length →
      s.metrics.length ≤ 6 → 0 ≤ s.confidenceThreshold →
      (analyzeMetrics now s).storedWarning = s.storedWarning ∧
      (analyzeMetrics now s).currentMode = Mode.adaptive_observation) := by
  constructor
  · intro ts h2 h6
    refine ⟨detect_of_le_six ts h2 h6, ?_⟩
    rw [Nat.sub_eq_zero_of_le h6]
    rfl
  · intro now s h5 h6 hth
    have hm : ¬ (detectChangePoint (s.metrics.map fun m =>
        m.memory.usage)).probability > s.confidenceThreshold := by
      rw [detect_of_le_six _ (by rw [List.length_map]; omega)
        (by rw [List.length_map]; omega)]
      show ¬ (0:ℝ) > s.confidenceThreshold
      exact not_lt.mpr hth
    have hc : ¬ (detectChangePoint (s.metrics.map fun m =>
        m.cpu.usage)).probability > s.confidenceThreshold := by
      rw [detect_of_le_six _ (by rw [List.length_map]; omega)
        (by rw [List.length_map]; omega)]
      show ¬ (0:ℝ) > s.confidenceThreshold
      exact not_lt.mpr hth
    rw [analyzeMetrics_noShift now s (not_lt.mpr h5) hm hc]
    exact ⟨rfl, rfl⟩

theorem claim_C9_witness :
    (detectChangePoint (List.replicate 5 (50:ℝ)) = ⟨0, -1, 0⟩ ∧
      List.range' 3 ((List.replicate 5 (50:ℝ)).length - 6) = []) ∧
    ((analyzeMetrics 0 warningFlatState).storedWarning
        = warningFlatState.storedWarning ∧
      (analyzeMetrics 0 warningFlatState).currentMode
        = Mode.adaptive_observation) :=
  ⟨claim_C9_small_series.1 (List.replicate 5 (50:ℝ)) (by simp) (by simp),
   claim_C9_small_series.2 0 warningFlatState (not_lt.mp flatState_length)
     (by show (List.replicate 5 flatSample).length ≤ 6; simp)
     (by show (0:ℝ) ≤ (0.75:ℝ); norm_num)⟩

theorem lastWindow_eq_reverse {α : Type} (l : List α) (w : ℕ) :
    lastWindow l w = (l.reverse.take w).reverse := by
  unfold lastWindow
  rw [List.take_reverse, List.reverse_reverse]

theorem lastWindow_append {α : Type} (l t : List α) (w : ℕ) :
    lastWindow (lastWindow l w ++ t) w = lastWindow (l ++ t) w := by
  rw [lastWindow_eq_reverse l w, lastWindow_eq_reverse _ w,
    lastWindow_eq_reverse (l ++ t) w, List.reverse_append,
    List.reverse_reverse, List.reverse_append,
    List.take_append_eq_append_take, List.take_append_eq_append_take,
    List.take_take]
  congr 2
  rw [inf_eq_left.mpr (Nat.sub_le w t.reverse.length)]

theorem collectMetrics_metrics (s : SentinelState) (x : MetricSample)
    (hw : 1 ≤ s.windowSize) :
    (collectMetrics s x).metrics
      = lastWindow (s.metrics ++ [x]) s.windowSize ∧
    (collectMetrics s x).windowSize = s.windowSize := by
  unfold collectMetrics
  refine ⟨?_, rfl⟩
  show (if s.windowSize < (s.metrics ++ [x]).length
      then jsSliceLast (s.metrics ++ [x]) s.windowSize
      else s.metrics ++ [x]) = _
  by_cases h : s.windowSize < (s.metrics ++ [x]).length
  · rw [if_pos h]
    unfold jsSliceLast lastWindow
    rw [if_neg (by omega)]
  · rw [if_neg h]
    unfold lastWindow
    rw [Nat.sub_eq_zero_of_le (not_lt.mp h), List.drop_zero]

theorem foldl_collectMetrics (samples : List MetricSample) :
    ∀ s : SentinelState, 1 ≤ s.windowSize →
      s.metrics.length ≤ s.windowSize →
      (samples.foldl collectMetrics s).metrics
        = lastWindow (s.metrics ++ samples) s.windowSize := by
  induction samples with
  | nil =>
    intro s _ hs
    show s.metrics = lastWindow (s.metrics ++ []) s.windowSize
    rw [List.append_nil]
    unfold lastWindow
    rw [Nat.sub_eq_zero_of_le hs, List.drop_zero]
  | cons x xs ih =>
    intro s hw hs
    rw [List.foldl_cons]
    have hcm := collectMetrics_metrics s x hw
    have hw2 : 1 ≤ (collectMetrics s x).windowSize := by rw [hcm.2]; exact hw
    have hlen : (collectMetrics s x).metrics.length
        ≤ (collectMetrics s x).windowSize := by
      rw [hcm.1, hcm.2]
      unfold lastWindow
      rw [List.length_drop]
      omega
    rw [ih (collectMetrics s x) hw2 hlen, hcm.1, hcm.2, lastWindow_append,
      List.append_assoc]
    rfl

/-- C5: after any number of sampler ticks starting from a window no larger
than its (positive) capacity, the window is exactly the last `windowSize`
elements of the full arrival sequence — most recent samples in arrival
order, oldest evicted first — and its length never exceeds `windowSize`. -/
theorem claim_C5_window_invariant (s : SentinelState)
    (samples : List MetricSample) (hw : 1 ≤ s.windowSize)
    (hs : s.metrics.length ≤ s.windowSize) :
    (samples.foldl collectMetrics s).metrics
      = lastWindow (s.metrics ++ samples) s.windowSize ∧
    (samples.foldl collectMetrics s).metrics.length ≤ s.windowSize := by
  have h := foldl_collectMetrics samples s hw hs
  refine ⟨h, ?_⟩
  rw [h]
  unfold lastWindow
  rw [List.length_drop]
  omega

theorem claim_C5_witness :
    ([sampleAt 1, sampleAt 2, sampleAt 3].foldl collectMetrics
        tinyWindowState).metrics
      = lastWindow (tinyWindowState.metrics ++
          [sampleAt 1, sampleAt 2, sampleAt 3]) tinyWindowState.windowSize ∧
    ([sampleAt 1, sampleAt 2, sampleAt 3].foldl collectMetrics
        tinyWindowState).metrics.length ≤ tinyWindowState.windowSize :=
  claim_C5_window_invariant tinyWindowState
    [sampleAt 1, sampleAt 2, sampleAt 3]
    (by show 1 ≤ 2; norm_num)
    (by show (List.length ([] : List MetricSample)) ≤ 2; simp)

theorem splitScore_const7 : splitScore (List.replicate 7 (1:ℝ)) 3 = 0 := by
  rw [splitScore_def, List.take_replicate, List.drop_replicate]
  norm_num [listMean, listVariance, List.sum_replicate, List.map_replicate,
    Real.sqrt_zero]

theorem detect_const7 :
    detectChangePoint (List.replicate 7 (1:ℝ)) = ⟨0, -1, 0⟩ := by
  have hb : ∀ i ∈ List.range' 3 1,
      splitScore (List.replicate 7 (1:ℝ)) i ≤ 0 := by
    intro i hi
    have hi3 : i = 3 := by
      have := List.mem_range'_1.mp hi
      omega
    rw [hi3, splitScore_const7]
  rw [detectChangePoint_eq _ (by simp),
    (show (List.replicate 7 (1:ℝ)).length - 6 = 1 by simp),
    foldl_detectStep_of_le _ _ 0 (-1) hb]

/-- C1 counterexample: for the constant series of seven `1`s the only
candidate split index is `3` — trivially the lowest score-maximizing
candidate — yet `detectChangePoint` returns `changePoint = -1`, because the
`-1` initial value is only replaced on a strict improvement over the initial
maximum `0` and every candidate score of the constant series is exactly `0`. -/
theorem claim_C1_counterexample :
    3 ∈ List.range' 3 ((List.replicate 7 (1:ℝ)).length - 6) ∧
    (∀ i ∈ List.range' 3 ((List.replicate 7 (1:ℝ)).length - 6),
      splitScore (List.replicate 7 (1:ℝ)) i
        ≤ splitScore (List.replicate 7 (1:ℝ)) 3) ∧
    (detectChangePoint (List.replicate 7 (1:ℝ))).changePoint ≠ 3 := by
  have hlen : (List.replicate 7 (1:ℝ)).length - 6 = 1 := by simp
  refine ⟨?_, ?_, ?_⟩
  · rw [hlen]
    exact List.mem_range'_1.mpr (by omega)
  · intro i hi
    rw [hlen] at hi
    have hi3 : i = 3 := by
      have := List.mem_range'_1.mp hi
      omega
    rw [hi3]
  · rw [detect_const7]
    decide

/-- C1 amended: for every series of length at least 2, `detectChangePoint`
returns `probability = magnitude =` the maximum of `0` and the candidate
scores over `[3, len-3)`; when some candidate score is positive,
`changePointIndex` is the lowest candidate index attaining that maximum, but
when every candidate score is `0` (or no candidate exists),
`changePointIndex` is `-1` rather than a maximizing index. -/
theorem claim_C1_amended (ts : List ℝ) (h : 2 ≤ ts.length) :
    (detectChangePoint ts).magnitude = (detectChangePoint ts).probability ∧
    0 ≤ (detectChangePoint ts).probability ∧
    (∀ i ∈ List.range' 3 (ts.length - 6),
      splitScore ts i ≤ (detectChangePoint ts).probability) ∧
    ((∃ i ∈ List.range' 3 (ts.length - 6), 0 < splitScore ts i) →
      ∃ i ∈ List.range' 3 (ts.length - 6),
        splitScore ts i = (detectChangePoint ts).probability ∧
        (detectChangePoint ts).changePoint = (i : ℤ) ∧
        ∀ j ∈ List.range' 3 (ts.length - 6),
          splitScore ts j = (detectChangePoint ts).probability → i ≤ j) ∧
    ((∀ i ∈ List.range' 3 (ts.length - 6), splitScore ts i ≤ 0) →
      (detectChangePoint ts).probability = 0 ∧
      (detectChangePoint ts).changePoint = -1) := by
  have hne : ¬ ts.length < 2 := not_lt.mpr h
  rw [detectChangePoint_eq ts hne]
  obtain ⟨h1, h2, h3⟩ :=
    detectFold_spec ts (List.range' 3 (ts.length - 6)) 0 (-1)
  set r := (List.range' 3 (ts.length - 6)).foldl (detectStep ts) (0, -1)
    with hr
  refine ⟨rfl, h1, h2, ?_, ?_⟩
  · rintro ⟨i0, hi0, hpos⟩
    rcases h3 with heq | ⟨l1, i, l2, hl, hv1, hv2, hv3, hv4, hv5⟩
    · exfalso
      have hle := h2 i0 hi0
      rw [heq] at hle
      have : splitScore ts i0 ≤ 0 := hle
      linarith
    · have hpw : (List.range' 3 (ts.length - 6)).Pairwise (· < ·) :=
        List.pairwise_lt_range' 3 (ts.length - 6)
      rw [hl, List.pairwise_append, List.pairwise_cons] at hpw
      obtain ⟨-, ⟨hpw2, -⟩, -⟩ := hpw
      refine ⟨i, by rw [hl]; simp, hv1.symm, hv2, ?_⟩
      intro j hj hfj
      rw [hl] at hj
      rcases List.mem_append.mp hj with hj1 | hj2
      · exfalso
        have hlt := hv4 j hj1
        have heq2 : splitScore ts j = splitScore ts i := hfj.trans hv1
        rw [heq2] at hlt
        exact lt_irrefl _ hlt
      · rcases List.mem_cons.mp hj2 with rfl | hj3
        · exact le_refl j
        · exact le_of_lt (hpw2 j hj3)
  · intro hall
    rcases h3 with heq | ⟨l1, i, l2, hl, hv1, hv2, hv3, hv4, hv5⟩
    · rw [heq]
      exact ⟨rfl, rfl⟩
    · exfalso
      have hi : i ∈ List.range' 3 (ts.length - 6) := by rw [hl]; simp
      have := hall i hi
      linarith

theorem claim_C1_amended_witness :
    2 ≤ ([(0:ℝ), 0]).length ∧
    ((detectChangePoint [(0:ℝ), 0]).magnitude
      = (detectChangePoint [(0:ℝ), 0]).probability ∧
    0 ≤ (detectChangePoint [(0:ℝ), 0]).probability ∧
    (∀ i ∈ List.range' 3 (([(0:ℝ), 0]).length - 6),
      splitScore [(0:ℝ), 0] i ≤ (detectChangePoint [(0:ℝ), 0]).probability) ∧
    ((∃ i ∈ List.range' 3 (([(0:ℝ), 0]).length - 6),
        0 < splitScore [(0:ℝ), 0] i) →
      ∃ i ∈ List.range' 3 (([(0:ℝ), 0]).length - 6),
        splitScore [(0:ℝ), 0] i = (detectChangePoint [(0:ℝ), 0]).probability ∧
        (detectChangePoint [(0:ℝ), 0]).changePoint = (i : ℤ) ∧
        ∀ j ∈ List.range' 3 (([(0:ℝ), 0]).length - 6),
          splitScore [(0:ℝ), 0] j
            = (detectChangePoint [(0:ℝ), 0]).probability → i ≤ j) ∧
    ((∀ i ∈ List.range' 3 (([(0:ℝ), 0]).length - 6),
        splitScore [(0:ℝ), 0] i ≤ 0) →
      (detectChangePoint [(0:ℝ), 0]).probability = 0 ∧
      (detectChangePoint [(0:ℝ), 0]).changePoint = -1)) :=
  ⟨by simp, claim_C1_amended [(0:ℝ), 0] (by simp)⟩

theorem stepSeries_length : stepSeries.length = 120 := by
  unfold stepSeries
  simp

theorem stepSeries_take_3 : stepSeries.take 3 = List.replicate 3 (0:ℝ) := by
  unfold stepSeries
  rw [List.take_append_eq_append_take, List.take_replicate]
  simp

theorem stepSeries_drop_3 :
    stepSeries.drop 3
      = List.replicate 57 (0:ℝ) ++ List.replicate 60 (10:ℝ) := by
  unfold stepSeries
  rw [List.drop_append_eq_append_drop, List.drop_replicate]
  simp

theorem mean_take_3 : listMean (List.replicate 3 (0:ℝ)) = 0 := by
  unfold listMean
  simp

theorem var_take_3 : listVariance (List.replicate 3 (0:ℝ)) 0 = 0 := by
  unfold listVariance
  simp

theorem mean_drop_3 :
    listMean (List.replicate 57 (0:ℝ) ++ List.replicate 60 (10:ℝ))
      = 200 / 39 := by
  unfold listMean
  norm_num [List.sum_append, List.sum_replicate]

theorem var_drop_3 :
    listVariance (List.replicate 57 (0:ℝ) ++ List.replicate 60 (10:ℝ))
      (200 / 39) = 38000 / 1521 := by
  unfold listVariance
  norm_num [List.map_append, List.map_replicate, List.sum_append,
    List.sum_replicate]

theorem splitScore_stepSeries_3 : splitScore stepSeries 3 = 0.95 := by
  rw [splitScore_def, stepSeries_take_3, stepSeries_drop_3, mean_take_3,
    mean_drop_3, var_take_3, var_drop_3]
  have hs : Real.sqrt ((0:ℝ) + 38000 / 1521) ≤ 5 := by
    rw [zero_add]
    calc Real.sqrt (38000 / 1521)
        ≤ Real.sqrt 25 := Real.sqrt_le_sqrt (by norm_num)
      _ = 5 := by
          rw [show (25:ℝ) = 5 ^ 2 by norm_num, Real.sqrt_sq (by norm_num)]
  have hnn : (0:ℝ) ≤ Real.sqrt ((0:ℝ) + 38000 / 1521) :=
    Real.sqrt_nonneg _
  have hpos : (0:ℝ) < Real.sqrt ((0:ℝ) + 38000 / 1521) + 0.001 := by
    linarith
  have habs : |(0:ℝ) - 200 / 39| = 200 / 39 := by
    rw [abs_of_nonpos (by norm_num)]
    norm_num
  have hge : (0.95:ℝ)
      ≤ |(0:ℝ) - 200 / 39| / (Real.sqrt ((0:ℝ) + 38000 / 1521) + 0.001) := by
    rw [habs, le_div_iff₀ hpos]
    nlinarith
  exact min_eq_left hge

theorem detect_stepSeries : detectChangePoint stepSeries = ⟨0.95, 3, 0.95⟩ := by
  rw [detectChangePoint_eq _ (by rw [stepSeries_length]; norm_num),
    stepSeries_length, (show (120:ℕ) - 6 = 114 by norm_num)]
  have hcons : List.range' 3 114 = 3 :: List.range' 4 113 := by
    rw [show (114:ℕ) = 113 + 1 by norm_num, List.range'_succ]
  rw [hcons, List.foldl_cons]
  have hstep : detectStep stepSeries (0, -1) 3 = (0.95, 3) := by
    unfold detectStep
    rw [splitScore_stepSeries_3]
    rw [if_pos (by norm_num : (0.95:ℝ) > ((0:ℝ), (-1:ℤ)).1)]
    norm_num
  rw [hstep,
    foldl_detectStep_of_le _ _ 0.95 3 (fun i _ => splitScore_le stepSeries i)]

/-- C3 counterexample: for the series of sixty 0s followed by sixty 10s the
detector does not return changePointIndex 60: the separation score already
reaches the 0.95 cap at the very first candidate split `i = 3`, and the
strict-improvement update keeps the first index attaining the maximum. -/
theorem claim_C3_counterexample :
    (detectChangePoint stepSeries).changePoint ≠ 60 := by
  rw [detect_stepSeries]
  decide

/-- C3 amended: for the series of sixty 0s followed by sixty 10s,
`detectChangePoint` returns probability and magnitude exactly at the 0.95
cap, with `changePointIndex = 3` — the lowest candidate index, which already
attains the capped score — rather than 60. -/
theorem claim_C3_amended : detectChangePoint stepSeries = ⟨0.95, 3, 0.95⟩ :=
  detect_stepSeries
